import Mathlib

/-!
# Verification of `homework.py`

A shallow embedding of the homework-status poller `src/homework.py` and
proofs about its validation pipeline (`check_response`, `parse_status`)
and its main poll loop (`main`).

Python values are modelled by the inductive `PyVal` (the only runtime
types the program manipulates: `None`, `int`, `str`, `list`, `dict` with
string keys).  Python exceptions are modelled by `PyErr`; fallible
Python evaluation is `Except PyErr`.  Each embedded function mirrors its
source line by line, including the places where evaluating an argument
of a `raise` statement itself raises a different exception (CPython
evaluates the argument of `raise` before raising, and
`'\x7bname\x7d'.format(positional_value)` raises `KeyError('name')`
because the template names a keyword field that was never supplied).
-/

set_option autoImplicit false

namespace Homework

/-- A Python runtime value, restricted to the types `homework.py`
manipulates: `None`, `int`, `str`, `list`, and `dict` with string keys
(the JSON payloads of the API only ever have string keys). -/
inductive PyVal where
  | none : PyVal
  | int : Int → PyVal
  | str : String → PyVal
  | list : List PyVal → PyVal
  | dict : List (String × PyVal) → PyVal

/-- The Python exceptions `homework.py` can raise: its own exception
classes plus the builtins (`TypeError`, `KeyError`, `IndexError`,
`NameError`, `AttributeError`) that its code paths produce.  Each
carries the exception's message/argument as a string. -/
inductive PyErr where
  | serviceError : String → PyErr
  | networkError : String → PyErr
  | endpointError : String → PyErr
  | messageSendingError : String → PyErr
  | globalsError : String → PyErr
  | dataTypeError : String → PyErr
  | responseFormatError : String → PyErr
  | responseContentError : String → PyErr
  | typeError : String → PyErr
  | keyError : String → PyErr
  | indexError : String → PyErr
  | nameError : String → PyErr
  | attributeError : String → PyErr
  deriving DecidableEq

/-- First-match lookup in a Python dict modelled as an association
list: `d[k]` / `k in d` both go through this. -/
def dictGet (d : List (String × PyVal)) (k : String) : Option PyVal :=
  (d.find? (fun p => p.1 == k)).map (fun p => p.2)

/-- Python truthiness (`bool(v)`) for the modelled value types. -/
def truthy : PyVal → Bool
  | PyVal.none => false
  | PyVal.int i => decide (i ≠ 0)
  | PyVal.str s => !(s == "")
  | PyVal.list l => !l.isEmpty
  | PyVal.dict d => !d.isEmpty

/-- `needle` occurs as a contiguous sublist of `hay` (Python's
substring test `needle in hay` on the underlying characters). -/
def strHasSub (needle : List Char) : List Char → Bool
  | [] => needle.isEmpty
  | c :: t => needle.isPrefixOf (c :: t) || strHasSub needle t

/-- Membership of a string value in a list, Python `'k' in some_list`:
`==` between a `str` and a value of another type is `False`. -/
def listHasStr (k : String) : List PyVal → Bool
  | [] => false
  | PyVal.str s :: t => s == k || listHasStr k t
  | _ :: t => listHasStr k t

/-- Python `'k' in v`: key membership for a dict, element membership
for a list, substring test for a str, `TypeError` for `None`/`int`
(not iterable). -/
def pyIn (k : String) : PyVal → Except PyErr Bool
  | PyVal.dict d => Except.ok (dictGet d k).isSome
  | PyVal.list l => Except.ok (listHasStr k l)
  | PyVal.str s => Except.ok (strHasSub k.data s.data)
  | PyVal.none => Except.error (PyErr.typeError "argument of type NoneType is not iterable")
  | PyVal.int _ => Except.error (PyErr.typeError "argument of type int is not iterable")

/-- Python `v['k']` (subscript with a string key): dict lookup raising
`KeyError` on a missing key; `TypeError` on the other types. -/
def pySubscript (v : PyVal) (k : String) : Except PyErr PyVal :=
  match v with
  | PyVal.dict d =>
      match dictGet d k with
      | some x => Except.ok x
      | Option.none => Except.error (PyErr.keyError k)
  | PyVal.list _ => Except.error (PyErr.typeError "list indices must be integers or slices, not str")
  | PyVal.str _ => Except.error (PyErr.typeError "string indices must be integers")
  | PyVal.none => Except.error (PyErr.typeError "NoneType object is not subscriptable")
  | PyVal.int _ => Except.error (PyErr.typeError "int object is not subscriptable")

/-- Python `v[0]` (subscript with the integer `0`): first element of a
list or str (`IndexError` when empty), `KeyError` for a dict without
the key `0` (the modelled dicts have only string keys), `TypeError`
otherwise. -/
def pyIndexZero : PyVal → Except PyErr PyVal
  | PyVal.list [] => Except.error (PyErr.indexError "list index out of range")
  | PyVal.list (x :: _) => Except.ok x
  | PyVal.str s =>
      match s.data with
      | [] => Except.error (PyErr.indexError "string index out of range")
      | c :: _ => Except.ok (PyVal.str (String.mk [c]))
  | PyVal.dict _ => Except.error (PyErr.keyError "0")
  | PyVal.none => Except.error (PyErr.typeError "NoneType object is not subscriptable")
  | PyVal.int _ => Except.error (PyErr.typeError "int object is not subscriptable")

/-- Python `v.get(k)` (one-argument dict `get`, default `None`);
`AttributeError` on the other types, which have no `get` method. -/
def pyGet (v : PyVal) (k : String) : Except PyErr PyVal :=
  match v with
  | PyVal.dict d => Except.ok ((dictGet d k).getD PyVal.none)
  | PyVal.list _ => Except.error (PyErr.attributeError "list object has no attribute get")
  | PyVal.str _ => Except.error (PyErr.attributeError "str object has no attribute get")
  | PyVal.none => Except.error (PyErr.attributeError "NoneType object has no attribute get")
  | PyVal.int _ => Except.error (PyErr.attributeError "int object has no attribute get")

/-- `isinstance(v, list)`. -/
def isList : PyVal → Bool
  | PyVal.list _ => true
  | _ => false

/-- `isinstance(v, dict)`. -/
def isDict : PyVal → Bool
  | PyVal.dict _ => true
  | _ => false

/-- `v is None`. -/
def isNone : PyVal → Bool
  | PyVal.none => true
  | _ => false

mutual
/-- Python `repr(v)` for the modelled values (used for elements inside
containers; `repr` of a `str` wraps it in quotes). -/
def pyRepr : PyVal → String
  | PyVal.none => "None"
  | PyVal.int i => toString i
  | PyVal.str s => "\x27" ++ s ++ "\x27"
  | PyVal.list l => "[" ++ pyReprList l ++ "]"
  | PyVal.dict d => "\x7b" ++ pyReprDict d ++ "\x7d"

/-- Comma-separated `repr`s of a list's elements. -/
def pyReprList : List PyVal → String
  | [] => ""
  | [x] => pyRepr x
  | x :: xs => pyRepr x ++ ", " ++ pyReprList xs

/-- Comma-separated `repr`s of a dict's entries. -/
def pyReprDict : List (String × PyVal) → String
  | [] => ""
  | [(k, v)] => "\x27" ++ k ++ "\x27: " ++ pyRepr v
  | (k, v) :: xs => "\x27" ++ k ++ "\x27: " ++ pyRepr v ++ ", " ++ pyReprDict xs
end

/-- Python `str(v)`: the string itself for a `str`, `repr`-style text
for the other modelled types. -/
def pyStr : PyVal → String
  | PyVal.str s => s
  | v => pyRepr v

/-! ## Module-level constants of `homework.py` -/

/-- `SERVICE_REJECTION = '\x7bcode\x7d'`, applied as
`.format(code=...)`: the message is `str` of the code value. -/
def SERVICE_REJECTION_format (code : PyVal) : String :=
  pyStr code

/-- `WRONG_DATA_TYPE_LIST`: the template
`'Неверный тип данных \x7btype\x7d, вместо "list"'`.  The source raises
`TypeError(WRONG_DATA_TYPE_LIST)` without calling `.format`, so the raw
template (braces included) is the message. -/
def WRONG_DATA_TYPE_LIST : String :=
  "Неверный тип данных \x7btype\x7d, вместо \"list\""

/-- `STATUS_IS_NOT_CHANGED = 'Статус не изменился, нет записей'`. -/
def STATUS_IS_NOT_CHANGED : String :=
  "Статус не изменился, нет записей"

/-- `LIST_IS_EMPTY = 'Список пустой'`. -/
def LIST_IS_EMPTY : String :=
  "Список пустой"

/-- `NO_HOMEWORK_NAME_KEY` (note: `.format(homework_name)` on it is a
no-op because the template has no replacement field). -/
def NO_HOMEWORK_NAME_KEY : String :=
  "В ответе API домашки отсутсвует ключ _homework_name_"

/-- `NO_HOMEWORKS_KEY` (the source string starts with a space). -/
def NO_HOMEWORKS_KEY : String :=
  " В ответе API домашки отсутствует ключ _homeworks"

/-- `WRONG_DATA_TYPE.format(type(homework))`: the template
`'Неверный тип данных \x7btype\x7d, вместо "dict"'` names the keyword
field `type`, but the argument is passed positionally, so CPython
raises `KeyError('type')` while evaluating the `raise` argument. -/
def WRONG_DATA_TYPE_format (_t : PyVal) : Except PyErr String :=
  Except.error (PyErr.keyError "type")

/-- `WRONG_HOMEWORK_STATUS.format(homework_status)`: the template
`'\x7bhomework_status\x7d'` names the keyword field `homework_status`,
but the argument is passed positionally, so CPython raises
`KeyError('homework_status')` while evaluating the `raise` argument. -/
def WRONG_HOMEWORK_STATUS_format (_s : PyVal) : Except PyErr String :=
  Except.error (PyErr.keyError "homework_status")

/-- `MESSAGE_IS_SENT.format(message)`: the template
`'Сообщение \x7bmessage\x7d отправлено'` names the keyword field
`message`, but the argument is passed positionally, so CPython raises
`KeyError('message')`. -/
def MESSAGE_IS_SENT_format (_m : String) : Except PyErr String :=
  Except.error (PyErr.keyError "message")

/-- `HOMEWORK_VERDICTS`: the fixed status → verdict table. -/
def HOMEWORK_VERDICTS : List (String × String) :=
  [("approved", "Работа проверена: ревьюеру всё понравилось. Ура!"),
   ("reviewing", "Работа взята на проверку ревьюером."),
   ("rejected", "Работа проверена: у ревьюера есть замечания.")]

/-- Lookup in `HOMEWORK_VERDICTS` (`HOMEWORK_VERDICTS[status]`). -/
def verdictsLookup (s : String) : Option String :=
  (HOMEWORK_VERDICTS.find? (fun p => p.1 == s)).map (fun p => p.2)

/-- Python `homework_status not in HOMEWORK_VERDICTS` needs a
membership test of an arbitrary value in a str-keyed dict: a str is
looked up, a `None`/`int` hashes but never matches, a `list`/`dict` is
unhashable (`TypeError`). -/
def inVerdicts : PyVal → Except PyErr Bool
  | PyVal.str s => Except.ok (verdictsLookup s).isSome
  | PyVal.none => Except.ok false
  | PyVal.int _ => Except.ok false
  | PyVal.list _ => Except.error (PyErr.typeError "unhashable type: list")
  | PyVal.dict _ => Except.error (PyErr.typeError "unhashable type: dict")

/-! ## `check_response` (src/homework.py lines 131-147)

```python
def check_response(response):
    if 'code' in response:
        raise ServiceError(SERVICE_REJECTION.format(
            code=response.get('code'),
        ))
    if response['homeworks']:
        return response['homeworks'][0]

    if 'homeworks' not in response.keys():
        raise ResponseContentError(NO_HOMEWORKS_KEY)

    if not isinstance(response.get('homework'), list):
        raise TypeError(WRONG_DATA_TYPE_LIST)

    else:
        raise IndexError(LIST_IS_EMPTY)
```
Note the source reads `response.get('homework')` (no trailing `s`) on
the second-to-last check. -/

/-- `'k' in response.keys()`: for a dict this is the same key
membership as `'k' in response`; no other type reaches this line in
`check_response` (a non-dict already failed at `response['homeworks']`),
and a non-dict would raise `AttributeError` at `.keys()`. -/
def pyKeysContain (v : PyVal) (k : String) : Except PyErr Bool :=
  match v with
  | PyVal.dict d => Except.ok (dictGet d k).isSome
  | _ => Except.error (PyErr.attributeError "object has no attribute keys")

/-- The embedding of `check_response`. -/
def check_response (response : PyVal) : Except PyErr PyVal := do
  if (← pyIn "code" response) then
    Except.error (PyErr.serviceError (SERVICE_REJECTION_format (← pyGet response "code")))
  if truthy (← pySubscript response "homeworks") then
    pyIndexZero (← pySubscript response "homeworks")
  else if !(← pyKeysContain response "homeworks") then
    Except.error (PyErr.responseContentError NO_HOMEWORKS_KEY)
  else if !(isList (← pyGet response "homework")) then
    Except.error (PyErr.typeError WRONG_DATA_TYPE_LIST)
  else
    Except.error (PyErr.indexError LIST_IS_EMPTY)

/-! ## `parse_status` (src/homework.py lines 150-165)

```python
def parse_status(homework):
    if not isinstance(homework, dict):
        raise DataTypeError(WRONG_DATA_TYPE.format(type(homework)))
    homework_name = homework.get('homework_name')
    homework_status = homework.get('status')

    if homework_status not in HOMEWORK_VERDICTS:
        raise NameError(WRONG_HOMEWORK_STATUS.format(homework_status))

    if homework_name is None:
        raise ResponseContentError(NO_HOMEWORK_NAME_KEY.format(homework_name))

    verdict = HOMEWORK_VERDICTS[homework_status]

    return f'Изменился статус проверки работы "\x7bhomework_name\x7d". \x7bverdict\x7d'
```
The two `raise` statements whose argument calls `.format` with a
positional argument on a keyword-field template instead raise
`KeyError` while evaluating that argument (see
`WRONG_DATA_TYPE_format`, `WRONG_HOMEWORK_STATUS_format`). -/

/-- The f-string of line 165,
`f'Изменился статус проверки работы "\x7bhomework_name\x7d". \x7bverdict\x7d'`
(an f-string interpolates `str()` of the value). -/
def statusChangedMessage (homework_name : PyVal) (verdict : String) : String :=
  "Изменился статус проверки работы \"" ++ pyStr homework_name ++ "\". " ++ verdict

/-- The embedding of `parse_status`. -/
def parse_status (homework : PyVal) : Except PyErr String := do
  if !(isDict homework) then
    Except.error (PyErr.dataTypeError (← WRONG_DATA_TYPE_format homework))
  let homework_name ← pyGet homework "homework_name"
  let homework_status ← pyGet homework "status"
  if !(← inVerdicts homework_status) then
    Except.error (PyErr.nameError (← WRONG_HOMEWORK_STATUS_format homework_status))
  if isNone homework_name then
    Except.error (PyErr.responseContentError NO_HOMEWORK_NAME_KEY)
  match homework_status with
  | PyVal.str st =>
      match verdictsLookup st with
      | some verdict =>
          return statusChangedMessage homework_name verdict
      | Option.none => Except.error (PyErr.keyError st)
  | _ => Except.error (PyErr.keyError (pyStr homework_status))

/-! ## `check_tokens` (src/homework.py lines 168-177) -/

/-- The three environment-sourced secrets (`os.getenv` yields `None`
when a variable is unset). -/
structure Config where
  practicumToken : Option String
  telegramToken : Option String
  telegramChatId : Option String

/-- `ENDPOINT` (a module constant, always set and non-empty). -/
def ENDPOINT : String := "https://practicum.yandex.ru/api/user_api/homework_statuses/"

/-- The embedding of `check_tokens`: `False` as soon as one of the four
checked values is `None` or empty, `True` otherwise. -/
def check_tokens (cfg : Config) : Bool :=
  [cfg.practicumToken, cfg.telegramToken, cfg.telegramChatId, some ENDPOINT].all
    (fun k => match k with
      | Option.none => false
      | some s => !(s == ""))

/-! ## `send_message` and one cycle of `main` (src/homework.py 94-104, 187-204)

```python
    while True:
        try:
            response = get_api_answer(current_timestamp)
            homework = check_response(response)
            message = parse_status(homework)
            send_message(bot, message)
            logging.info(homework)
            current_timestamp = response.get('current_date')
        except IndexError:
            message = 'Статус работы не изменился'
            send_message(bot, message)
            logging.info(message)
        except Exception as error:
            message = f'Сбой в работе программы:\x7berror\x7d'
            send_message(bot, message)
        finally:
            time.sleep(RETRY_PERIOD)
        logging.info(MESSAGE_IS_SENT.format(message))
```

The external collaborators are abstracted by `CycleEnv`: the outcome of
this cycle's `get_api_answer` call (a decoded payload, or the exception
the fetch raised), and the outcome of `bot.send_message` per message
text (`none` = delivered, `some errText` = the text of the underlying
delivery exception).  `time.sleep` and `logging` have no modelled
effect.  The trailing `logging.info(MESSAGE_IS_SENT.format(message))`
sits inside `while True` but OUTSIDE the `try`, so an exception there
(and `.format(message)` always raises `KeyError('message')`, see
`MESSAGE_IS_SENT_format`) propagates out of `main`. -/

/-- Outcomes of the external collaborators during one cycle. -/
structure CycleEnv where
  fetchResult : Except PyErr PyVal
  sendResult : String → Option String

/-- `FAILURE_TO_SEND_MESSAGE.format(error=..., message=...)`: the
template `'\x7berror\x7d, \x7bmessage\x7d'` with keyword arguments. -/
def FAILURE_TO_SEND_MESSAGE_format (errText message : String) : String :=
  errText ++ ", " ++ message

/-- The embedding of `send_message`: delivery failure is wrapped in
`MessageSendingError`. -/
def send_message (env : CycleEnv) (message : String) : Except PyErr Unit :=
  match env.sendResult message with
  | Option.none => Except.ok ()
  | some errText =>
      Except.error (PyErr.messageSendingError (FAILURE_TO_SEND_MESSAGE_format errText message))

/-- Python `str(exception)`: the single message argument each modelled
exception carries; for `KeyError`, CPython prints the `repr` of the
missing key (quotes included). -/
def errStr : PyErr → String
  | PyErr.serviceError m => m
  | PyErr.networkError m => m
  | PyErr.endpointError m => m
  | PyErr.messageSendingError m => m
  | PyErr.globalsError m => m
  | PyErr.dataTypeError m => m
  | PyErr.responseFormatError m => m
  | PyErr.responseContentError m => m
  | PyErr.typeError m => m
  | PyErr.keyError m => "\x27" ++ m ++ "\x27"
  | PyErr.indexError m => m
  | PyErr.nameError m => m
  | PyErr.attributeError m => m

/-- `except IndexError` matches exactly the `IndexError` class. -/
def isIndexError : PyErr → Bool
  | PyErr.indexError _ => true
  | _ => false

/-- The `try` block of one cycle (src/homework.py lines 188-194):
fetch, validate, format, notify, then
`current_timestamp = response.get('current_date')`.  Returns the new
cursor value and the message that was delivered. -/
def cycleTry (env : CycleEnv) : Except PyErr (PyVal × String) := do
  let response ← env.fetchResult
  let homework ← check_response response
  let message ← parse_status homework
  let _ ← send_message env message
  let newTimestamp ← pyGet response "current_date"
  return (newTimestamp, message)

/-- The notification text chosen by the `except` clauses (lines
195-201): the fixed unchanged-status text for `IndexError`, the generic
failure text for every other exception. -/
def handlerMessage (e : PyErr) : String :=
  if isIndexError e then "Статус работы не изменился"
  else "Сбой в работе программы:" ++ errStr e

/-- Result of one pass through the `while True` body: either control
reaches the next iteration with a (possibly updated) cursor, or an
uncaught exception propagates out of `main` and the process dies. -/
inductive CycleOutcome where
  | nextCycle : PyVal → CycleOutcome
  | processExit : PyErr → CycleOutcome

/-- One full pass through the `while True` body, `finally` and the
trailing `logging.info(MESSAGE_IS_SENT.format(message))` included.  An
exception raised inside an `except` handler (a failed `send_message`)
is not caught by anything and propagates, as does an exception raised
by the trailing log line, which runs after the `try` statement on every
path that leaves it normally. -/
def runCycle (env : CycleEnv) (current_timestamp : PyVal) : CycleOutcome :=
  match cycleTry env with
  | Except.ok (newTimestamp, message) =>
      match MESSAGE_IS_SENT_format message with
      | Except.ok _ => CycleOutcome.nextCycle newTimestamp
      | Except.error e2 => CycleOutcome.processExit e2
  | Except.error e =>
      match send_message env (handlerMessage e) with
      | Except.ok _ =>
          match MESSAGE_IS_SENT_format (handlerMessage e) with
          | Except.ok _ => CycleOutcome.nextCycle current_timestamp
          | Except.error e2 => CycleOutcome.processExit e2
      | Except.error e2 => CycleOutcome.processExit e2

/-- Discriminator: did the pass end in process termination? -/
def CycleOutcome.isExit : CycleOutcome → Bool
  | CycleOutcome.processExit _ => true
  | CycleOutcome.nextCycle _ => false

/-- The value of the `current_timestamp` variable once the
`try`/`except`/`finally` statement of one cycle has finished: line 194
assigns `response.get('current_date')` on the fully successful path,
and no handler path touches the variable. -/
def cycleCursorAfter (env : CycleEnv) (current_timestamp : PyVal) : PyVal :=
  match cycleTry env with
  | Except.ok (newTimestamp, _) => newTimestamp
  | Except.error _ => current_timestamp

/-- Discriminator: did a `check_response` run fail with the program's
own `DataTypeError` class? -/
def raisesDataTypeError (r : Except PyErr PyVal) : Bool :=
  match r with
  | Except.error (PyErr.dataTypeError _) => true
  | _ => false

/-! ## Concrete fixtures used by witnesses and counterexamples -/

/-- A well-formed homework record. -/
def hwApproved : PyVal :=
  PyVal.dict [("homework_name", PyVal.str "hw1"), ("status", PyVal.str "approved")]

/-- A fully well-formed payload: one homework, a `current_date`. -/
def respGood : PyVal :=
  PyVal.dict [("homeworks", PyVal.list [hwApproved]), ("current_date", PyVal.int 1000)]

/-- A well-formed payload whose `current_date` field is absent. -/
def respNoDate : PyVal :=
  PyVal.dict [("homeworks", PyVal.list [hwApproved])]

/-- The benign no-news payload: `homeworks` bound to an empty list. -/
def respEmptyHomeworks : PyVal :=
  PyVal.dict [("homeworks", PyVal.list [])]

/-- A cycle in which the fetch decodes `respGood` and every
notification is delivered. -/
def envAllOk : CycleEnv :=
  { fetchResult := Except.ok respGood, sendResult := fun _ => Option.none }

/-- A cycle in which the fetch decodes `respNoDate` and every
notification is delivered. -/
def envNoDate : CycleEnv :=
  { fetchResult := Except.ok respNoDate, sendResult := fun _ => Option.none }

/-! ## The claims -/

/-- `Except.ok` on the left of a bind reduces. -/
@[simp]
theorem exceptOkBind {ε α β : Type} (a : α) (f : α → Except ε β) :
    (Except.ok a >>= f : Except ε β) = f a := rfl

/-- `Except.error` on the left of a bind short-circuits. -/
@[simp]
theorem exceptErrorBind {ε α β : Type} (e : ε) (f : α → Except ε β) :
    ((Except.error e : Except ε α) >>= f) = Except.error e := rfl

/-- `pure` in `Except` is `Except.ok`. -/
@[simp]
theorem exceptPureEq {ε α : Type} (a : α) :
    (Pure.pure a : Except ε α) = Except.ok a := rfl

/-- Inversion of a successful `Except` bind. -/
theorem exceptBindOk {ε α β : Type} {x : Except ε α} {f : α → Except ε β} {b : β}
    (h : x >>= f = Except.ok b) : ∃ a, x = Except.ok a ∧ f a = Except.ok b := by
  cases x with
  | ok a => exact ⟨a, rfl, h⟩
  | error e => exact nomatch h

/-- C1: the claim says that once the loop is running no exception
raised during a cycle terminates the process.  The code refutes this:
the trailing `logging.info(MESSAGE_IS_SENT.format(message))` on line
204 sits inside `while True` but outside the `try`, and
`MESSAGE_IS_SENT.format(message)` passes `message` positionally to the
keyword-field template `'Сообщение \x7bmessage\x7d отправлено'`, so it
raises an uncaught `KeyError('message')`; a failed `send_message`
inside an `except` handler is likewise uncaught.  Consequently EVERY
pass through the loop body — including a completely successful cycle —
ends with an exception propagating out of `main`: the loop never
reaches a second iteration. -/
theorem claim1_every_cycle_kills_the_process (env : CycleEnv) (ts : PyVal) :
    (runCycle env ts).isExit = true := by
  unfold runCycle
  cases h : cycleTry env with
  | ok p =>
      obtain ⟨c, m⟩ := p
      rfl
  | error e =>
      cases hs : send_message env (handlerMessage e) with
      | ok u => simp [hs, MESSAGE_IS_SENT_format, CycleOutcome.isExit]
      | error e2 => simp [hs, CycleOutcome.isExit]

/-- C2: the claim says an empty `homeworks` list makes `check_response`
fail with the empty-list error (`IndexError`, message `LIST_IS_EMPTY`),
which the loop's dedicated `except IndexError` branch turns into the
fixed "status unchanged" notification.  The code refutes this: line 143
reads `response.get('homework')` — no trailing `s` — so on the payload
`\x7b"homeworks": []\x7d` that lookup yields `None`, the
`isinstance(..., list)` guard fails, and `TypeError(WRONG_DATA_TYPE_LIST)`
is raised instead; in `main` a `TypeError` is not an `IndexError`, so
the generic failure notification is sent, not the fixed one.  The dead
`IndexError` branch and the `except IndexError` handler show the
intended behaviour; the missing `s` is the slip. -/
theorem claim2_empty_homeworks_raises_type_error :
    check_response respEmptyHomeworks = Except.error (PyErr.typeError WRONG_DATA_TYPE_LIST) ∧
      isIndexError (PyErr.typeError WRONG_DATA_TYPE_LIST) = false ∧
      handlerMessage (PyErr.typeError WRONG_DATA_TYPE_LIST) =
        "Сбой в работе программы:" ++ WRONG_DATA_TYPE_LIST ∧
      handlerMessage (PyErr.indexError LIST_IS_EMPTY) = "Статус работы не изменился" :=
  ⟨rfl, rfl, rfl, rfl⟩

/-- C3: the claim says a mapping without a `homeworks` key makes
`check_response` fail with `ResponseContentError` ("missing homeworks
key").  The code refutes this: line 137 evaluates
`response['homeworks']` BEFORE the missing-key check on line 140, so a
payload without the key raises `KeyError('homeworks')` and the
`ResponseContentError` branch is unreachable for exactly the inputs it
was written for.  Shown on the empty mapping and on a non-empty mapping
without the key. -/
theorem claim3_missing_homeworks_raises_key_error :
    check_response (PyVal.dict []) = Except.error (PyErr.keyError "homeworks") ∧
      check_response (PyVal.dict [("current_date", PyVal.int 1000)]) =
        Except.error (PyErr.keyError "homeworks") :=
  ⟨rfl, rfl⟩

/-- C4 counterexample: the claim says the cursor keeps its previous
value when the response has no `current_date` field.  Concretely: with
previous cursor `100` and a successful cycle over `respNoDate` (which
lacks `current_date`), line 194 assigns
`current_timestamp = response.get('current_date')`, i.e. `None` — not
the previous value `100`. -/
theorem claim4_counterexample :
    cycleCursorAfter envNoDate (PyVal.int 100) = PyVal.none ∧
      PyVal.none ≠ PyVal.int 100 :=
  ⟨rfl, fun h => nomatch h⟩

/-- C4 as amended: after every successful cycle the cursor is replaced
by the response's `current_date` value when that field is present, and
is set to `None` (the default of `dict.get`, discarding the previous
value) when the field is absent. -/
theorem claim4_amended_cursor_update (env : CycleEnv) (d : List (String × PyVal))
    (c : PyVal) (m : String)
    (hf : env.fetchResult = Except.ok (PyVal.dict d))
    (hc : cycleTry env = Except.ok (c, m)) :
    c = (dictGet d "current_date").getD PyVal.none := by
  unfold cycleTry at hc
  obtain ⟨resp, hr, hc⟩ := exceptBindOk hc
  rw [hf] at hr
  injection hr with hr
  subst hr
  obtain ⟨hw, hcr, hc⟩ := exceptBindOk hc
  obtain ⟨msg, hps, hc⟩ := exceptBindOk hc
  obtain ⟨u, hsm, hc⟩ := exceptBindOk hc
  obtain ⟨nts, hpg, hc⟩ := exceptBindOk hc
  simp [pyGet] at hpg
  simp at hc
  obtain ⟨h1, h2⟩ := hc
  rw [← h1, ← hpg]

/-- C4 witness: on `envAllOk` (payload `respGood`, `current_date`
present and equal to `1000`) the amended statement instantiates to the
cursor becoming `1000`. -/
theorem claim4_witness :
    PyVal.int 1000 =
      (dictGet [("homeworks", PyVal.list [hwApproved]),
        ("current_date", PyVal.int 1000)] "current_date").getD PyVal.none :=
  claim4_amended_cursor_update envAllOk
    [("homeworks", PyVal.list [hwApproved]), ("current_date", PyVal.int 1000)]
    (PyVal.int 1000)
    (statusChangedMessage (PyVal.str "hw1")
      "Работа проверена: ревьюеру всё понравилось. Ура!")
    rfl rfl

/-- C5: for every payload that is a mapping without a `code` field
whose `homeworks` key holds a non-empty sequence, `check_response`
returns exactly the first element of that sequence, unchanged (line
138: `return response['homeworks'][0]`; a non-empty list is truthy, so
line 137 takes the return branch). -/
theorem claim5_nonempty_returns_first_element (d : List (String × PyVal))
    (x : PyVal) (xs : List PyVal)
    (hcode : dictGet d "code" = Option.none)
    (hhw : dictGet d "homeworks" = some (PyVal.list (x :: xs))) :
    check_response (PyVal.dict d) = Except.ok x := by
  simp [check_response, pyIn, pySubscript, pyIndexZero, truthy, hcode, hhw]

/-- C5 witness: a two-element `homeworks` list; the first element comes
back unchanged. -/
theorem claim5_witness :
    check_response (PyVal.dict [("homeworks",
        PyVal.list [PyVal.str "first", PyVal.str "second"])]) =
      Except.ok (PyVal.str "first") :=
  claim5_nonempty_returns_first_element
    [("homeworks", PyVal.list [PyVal.str "first", PyVal.str "second"])]
    (PyVal.str "first") [PyVal.str "second"] rfl rfl

/-- C6: for every payload (a mapping) containing a `code` field,
`check_response` fails with `ServiceError` carrying `str` of that code
value, regardless of any other fields present — the `code` check on
line 133 runs first. -/
theorem claim6_code_field_service_error (d : List (String × PyVal)) (v : PyVal)
    (hcode : dictGet d "code" = some v) :
    check_response (PyVal.dict d) =
      Except.error (PyErr.serviceError (SERVICE_REJECTION_format v)) := by
  simp [check_response, pyIn, pyGet, hcode]

/-- C6 witness: a payload carrying both a `code` field and a perfectly
valid `homeworks` field still fails with `ServiceError('not_authenticated')`. -/
theorem claim6_witness :
    check_response (PyVal.dict [("code", PyVal.str "not_authenticated"),
        ("homeworks", PyVal.list [hwApproved])]) =
      Except.error (PyErr.serviceError
        (SERVICE_REJECTION_format (PyVal.str "not_authenticated"))) :=
  claim6_code_field_service_error
    [("code", PyVal.str "not_authenticated"), ("homeworks", PyVal.list [hwApproved])]
    (PyVal.str "not_authenticated") rfl

/-- C7 counterexample: the claim says every non-mapping input makes
`check_response` fail with `DataTypeError`.  But `check_response` has
no `isinstance` check at all (the `DataTypeError` guard lives in
`parse_status`): on the list `[]`, line 137's `response['homeworks']`
raises the builtin `TypeError` ("list indices must be integers..."),
not the program's `DataTypeError`. -/
theorem claim7_counterexample :
    check_response (PyVal.list []) =
        Except.error (PyErr.typeError "list indices must be integers or slices, not str") ∧
      raisesDataTypeError (check_response (PyVal.list [])) = false :=
  ⟨rfl, rfl⟩

/-- C7 as amended: every non-mapping input makes `check_response` fail,
but never with `DataTypeError`: depending on the input the failure is a
builtin `TypeError` (lists, `None`, ints, strings without the substring
`code`) or `AttributeError` (strings containing the substring `code`,
whose `in` test succeeds but which have no `.get`). -/
theorem claim7_amended_non_mapping_fails (v : PyVal) (h : isDict v = false) :
    (∃ e, check_response v = Except.error e) ∧
      raisesDataTypeError (check_response v) = false := by
  cases v with
  | none => exact ⟨⟨_, rfl⟩, rfl⟩
  | int i => exact ⟨⟨_, rfl⟩, rfl⟩
  | str s =>
      by_cases hs : strHasSub "code".data s.data
      · constructor
        · exact ⟨PyErr.attributeError "str object has no attribute get",
            by simp [check_response, pyIn, pyGet, hs]⟩
        · simp [raisesDataTypeError, check_response, pyIn, pyGet, hs]
      · constructor
        · exact ⟨PyErr.typeError "string indices must be integers",
            by simp [check_response, pyIn, pySubscript, hs]⟩
        · simp [raisesDataTypeError, check_response, pyIn, pySubscript, hs]
  | list l =>
      by_cases hl : listHasStr "code" l
      · constructor
        · exact ⟨PyErr.attributeError "list object has no attribute get",
            by simp [check_response, pyIn, pyGet, hl]⟩
        · simp [raisesDataTypeError, check_response, pyIn, pyGet, hl]
      · constructor
        · exact ⟨PyErr.typeError "list indices must be integers or slices, not str",
            by simp [check_response, pyIn, pySubscript, hl]⟩
        · simp [raisesDataTypeError, check_response, pyIn, pySubscript, hl]
  | dict d => simp [isDict] at h

/-- C7 witness: on the non-mapping input `"abc"` (a string), the
amended statement instantiates to a failure that is not a
`DataTypeError`. -/
theorem claim7_witness :
    (∃ e, check_response (PyVal.str "abc") = Except.error e) ∧
      raisesDataTypeError (check_response (PyVal.str "abc")) = false :=
  claim7_amended_non_mapping_fails (PyVal.str "abc") rfl

/-- C8: the claim says a record with an unrecognized `status` makes
`parse_status` fail with the unknown-status error (`NameError`)
carrying the offending value.  The code refutes this: the `raise`
argument `WRONG_HOMEWORK_STATUS.format(homework_status)` passes the
status positionally to the keyword-field template
`'\x7bhomework_status\x7d'`, so CPython raises
`KeyError('homework_status')` while evaluating it — the `NameError` is
never constructed and the offending value is not carried.  The
template/constant pair shows the intent; the positional `.format` call
is the slip. -/
theorem claim8_unknown_status_raises_key_error :
    parse_status (PyVal.dict [("homework_name", PyVal.str "hw1"),
        ("status", PyVal.str "peer_review")]) =
      Except.error (PyErr.keyError "homework_status") :=
  rfl

/-- C9: for every homework record that is a mapping with a recognized
status and a non-null `homework_name`, `parse_status` returns the
line-165 message — a non-empty string that contains both the name and
the exact verdict text the table associates with that status. -/
theorem claim9_formatter_embeds_name_and_verdict (d : List (String × PyVal))
    (nm : PyVal) (st verdict : String)
    (hn : dictGet d "homework_name" = some nm) (hnn : isNone nm = false)
    (hs : dictGet d "status" = some (PyVal.str st))
    (hv : verdictsLookup st = some verdict) :
    parse_status (PyVal.dict d) = Except.ok (statusChangedMessage nm verdict) ∧
      (∃ a b : List Char,
        (statusChangedMessage nm verdict).data = a ++ (pyStr nm).data ++ b) ∧
      (∃ a b : List Char,
        (statusChangedMessage nm verdict).data = a ++ verdict.data ++ b) ∧
      statusChangedMessage nm verdict ≠ "" := by
  refine ⟨?_, ?_, ?_, ?_⟩
  · simp [parse_status, isDict, pyGet, inVerdicts, hn, hnn, hs, hv]
  · exact ⟨("Изменился статус проверки работы \"").data, ("\". " ++ verdict).data,
      by simp [statusChangedMessage, String.data_append, List.append_assoc]⟩
  · exact ⟨("Изменился статус проверки работы \"" ++ pyStr nm ++ "\". ").data, [],
      by simp [statusChangedMessage, String.data_append, List.append_assoc]⟩
  · intro hEmpty
    rw [String.ext_iff] at hEmpty
    simp [statusChangedMessage, String.data_append] at hEmpty

/-- C9 witness: a record with name `hw42` and status `reviewing`. -/
theorem claim9_witness :
    parse_status (PyVal.dict [("homework_name", PyVal.str "hw42"),
        ("status", PyVal.str "reviewing")]) =
      Except.ok (statusChangedMessage (PyVal.str "hw42")
        "Работа взята на проверку ревьюером.") ∧
      (∃ a b : List Char,
        (statusChangedMessage (PyVal.str "hw42")
          "Работа взята на проверку ревьюером.").data =
            a ++ (pyStr (PyVal.str "hw42")).data ++ b) ∧
      (∃ a b : List Char,
        (statusChangedMessage (PyVal.str "hw42")
          "Работа взята на проверку ревьюером.").data =
            a ++ ("Работа взята на проверку ревьюером." : String).data ++ b) ∧
      statusChangedMessage (PyVal.str "hw42")
        "Работа взята на проверку ревьюером." ≠ "" :=
  claim9_formatter_embeds_name_and_verdict
    [("homework_name", PyVal.str "hw42"), ("status", PyVal.str "reviewing")]
    (PyVal.str "hw42") "reviewing" "Работа взята на проверку ревьюером."
    rfl rfl rfl rfl

/-- C10: `parse_status` rejects only a literally null/missing
`homework_name`.  With a recognized status, `homework.get('homework_name')`
yields the stored value (or `None` when the key is missing); the line
160 guard is exactly `is None`, so any non-`None` value — the empty
string included — passes, and the returned message embeds it verbatim;
only `None` (stored or from a missing key) triggers
`ResponseContentError`. -/
theorem claim10_only_none_name_rejected (d : List (String × PyVal))
    (st verdict : String) (nm : PyVal)
    (hs : dictGet d "status" = some (PyVal.str st))
    (hv : verdictsLookup st = some verdict)
    (hn : (dictGet d "homework_name").getD PyVal.none = nm) :
    (isNone nm = false →
      parse_status (PyVal.dict d) = Except.ok (statusChangedMessage nm verdict)) ∧
      (isNone nm = true →
        parse_status (PyVal.dict d) =
          Except.error (PyErr.responseContentError NO_HOMEWORK_NAME_KEY)) := by
  constructor
  · intro hnn
    simp [parse_status, isDict, pyGet, inVerdicts, hn, hnn, hs, hv]
  · intro hnn
    simp [parse_status, isDict, pyGet, inVerdicts, hn, hnn, hs, hv]

/-- C10 witness: a record whose `homework_name` is present but is the
empty string is accepted, and the empty string is embedded verbatim. -/
theorem claim10_witness :
    parse_status (PyVal.dict [("homework_name", PyVal.str ""),
        ("status", PyVal.str "rejected")]) =
      Except.ok (statusChangedMessage (PyVal.str "")
        "Работа проверена: у ревьюера есть замечания.") :=
  (claim10_only_none_name_rejected
    [("homework_name", PyVal.str ""), ("status", PyVal.str "rejected")]
    "rejected" "Работа проверена: у ревьюера есть замечания." (PyVal.str "")
    rfl rfl rfl).1 rfl

end Homework
